import Mathlib

/-!
Verification development for the perplexity MCP server repository.

The repository ships two parallel implementations of the same tool surface:
an untyped one (index.ts, modeled in namespace IndexTs) and a zod-validated
one (src/server.ts, modeled in namespace ServerTs).  The shared pure helpers
(validateMessages, stripThinkingTokens, formatSearchResults) are textually
identical in both files and are modeled once.

Dynamic JavaScript values are embedded as the inductive type Jv.  Thrown
Error values are embedded as ErrKind: messages fully determined by the code
become ErrKind.emsg with the literal string; messages built by a template
literal that embeds the engine-specific rendering of another exception
(for example a ZodError) become ErrKind.ewrapCause / ErrKind.ewrapIssues,
keeping the literal message part and the cause separate.  A property access
on null or undefined becomes ErrKind.typeErr.
-/

namespace PerplexityMcp

/-- Path element of a zod validation issue: an object field or an array
index, mirroring the entries of ZodIssue.path. -/
inductive ZPath where
  | fld (s : String)
  | idx (n : Nat)
deriving DecidableEq, Repr

/-- A zod issue, projected to its path.  The classification code in
src/server.ts performChatCompletion reads only issue paths
(i.path.includes(...)), so the path is the faithful projection. -/
abbrev ZIssue := List ZPath

/-- A thrown JavaScript Error, see the module docstring. -/
inductive ErrKind where
  | typeErr
  | emsg (s : String)
  | ewrapCause (pre : String) (cause : String)
  | ewrapIssues (pre : String) (issues : List ZIssue)
deriving DecidableEq, Repr

/-- Timer bookkeeping events: setTimeout and clearTimeout calls made by a
single call of performChatCompletion / performSearch. -/
inductive TimerEvent where
  | setT
  | clearT
deriving DecidableEq, Repr

/-- JavaScript runtime values as produced by JSON parsing, plus the
distinguished undefined value.  Numbers are modeled as integers: no claim
in this development depends on non-integer numerics or NaN. -/
inductive Jv where
  | undefined
  | jnull
  | bool (b : Bool)
  | num (n : Int)
  | str (s : String)
  | arr (xs : List Jv)
  | obj (fields : List (String × Jv))

/-- Field lookup in an object literal; a duplicated key resolves to the
last occurrence, as in JavaScript object literals and JSON.parse.  A
missing key reads as undefined. -/
def lookupField (fields : List (String × Jv)) (k : String) : Jv :=
  fields.foldl (fun acc p => if p.1 = k then p.2 else acc) Jv.undefined

/-- JavaScript truthiness.  undefined, null, false, 0 and the empty string
are falsy; every array and object is truthy. -/
def Jv.truthy : Jv → Bool
  | .undefined => false
  | .jnull => false
  | .bool b => b
  | .num n => n != 0
  | .str s => s ≠ ""
  | .arr _ => true
  | .obj _ => true

/-- Array.isArray. -/
def Jv.isArr : Jv → Bool
  | .arr _ => true
  | _ => false

/-- typeof v === "string". -/
def Jv.isStr : Jv → Bool
  | .str _ => true
  | _ => false

/-- typeof v === "number". -/
def Jv.isNum : Jv → Bool
  | .num _ => true
  | _ => false

/-- v === undefined. -/
def Jv.isUndefined : Jv → Bool
  | .undefined => true
  | _ => false

/-- v === null. -/
def Jv.isNull : Jv → Bool
  | .jnull => true
  | _ => false

/-- v is a plain object (what z.object accepts). -/
def Jv.isObj : Jv → Bool
  | .obj _ => true
  | _ => false

/-- typeof v === "object": true for null, arrays and objects. -/
def Jv.typeofObject : Jv → Bool
  | .jnull => true
  | .arr _ => true
  | .obj _ => true
  | _ => false

/-- The list of elements of an array value (and [] otherwise). -/
def Jv.asArr : Jv → List Jv
  | .arr xs => xs
  | _ => []

/-- The payload of a string value (and "" otherwise). -/
def Jv.asStr : Jv → String
  | .str s => s
  | _ => ""

/-- Non-throwing property read v.k, usable when v is known not to be null
or undefined: objects look the key up, every other value reads as
undefined (none of the property names used by this code exist on
primitives, arrays or functions). -/
def Jv.get (v : Jv) (k : String) : Jv :=
  match v with
  | .obj fs => lookupField fs k
  | _ => .undefined

/-- Property read v.k as executed by JavaScript: a read on null or
undefined throws a TypeError, every other base behaves like Jv.get. -/
def Jv.getProp (v : Jv) (k : String) : Except ErrKind Jv :=
  match v with
  | .undefined => .error .typeErr
  | .jnull => .error .typeErr
  | _ => .ok (v.get k)

/-- Fueled rendering of a value by a JavaScript template literal
(String(v)).  The fuel only bounds nesting depth of arrays; displayJv
always supplies enough. -/
def displayJvF : Nat → Jv → String
  | _, .undefined => "undefined"
  | _, .jnull => "null"
  | _, .bool true => "true"
  | _, .bool false => "false"
  | _, .num n => toString n
  | _, .str s => s
  | _, .obj _ => "[object Object]"
  | 0, .arr _ => ""
  | n + 1, .arr xs =>
      String.intercalate ","
        (xs.map (fun v =>
          match v with
          | .undefined => ""
          | .jnull => ""
          | w => displayJvF n w))

mutual

/-- Nesting depth of a value, used as fuel for displayJvF. -/
def jvDepth : Jv → Nat
  | .arr xs => 1 + jvDepthList xs
  | _ => 1

/-- Nesting depth of a list of values. -/
def jvDepthList : List Jv → Nat
  | [] => 0
  | x :: r => max (jvDepth x) (jvDepthList r)

end

/-- Rendering of a value interpolated into a template literal.  Array
elements that are null or undefined render as the empty string inside
Array.prototype.join, as in JavaScript. -/
def displayJv (v : Jv) : String :=
  displayJvF (jvDepth v) v

/-- A conversation message, src/types.ts interface Message. -/
structure Message where
  role : String
  content : String
deriving DecidableEq, Repr

/-- The environment variables read during a call.  Passing the record per
call models the fact that the code reads process.env at call time. -/
structure Env where
  apiKey : Option String
  timeoutMsVar : Option String

/-- Truthiness of an environment variable lookup: absent and empty-string
values are falsy. -/
def optTruthy : Option String → Bool
  | none => false
  | some s => s ≠ ""

/-- JavaScript x || dflt over an environment variable read. -/
def envStr (o : Option String) (dflt : String) : String :=
  match o with
  | none => dflt
  | some s => if s = "" then dflt else s

/-- The whitespace characters recognized by String.prototype.trim and
parseInt (WhiteSpace plus LineTerminator). -/
def isJsWhitespace (c : Char) : Bool :=
  c = ' ' || c = '\t' || c = '\n' || c = '\r' ||
  c.toNat = 11 || c.toNat = 12 || c.toNat = 0xa0 || c.toNat = 0x1680 ||
  (0x2000 ≤ c.toNat && c.toNat ≤ 0x200a) ||
  c.toNat = 0x2028 || c.toNat = 0x2029 || c.toNat = 0x202f ||
  c.toNat = 0x205f || c.toNat = 0x3000 || c.toNat = 0xfeff

/-- String.prototype.trim. -/
def jsTrim (s : String) : String :=
  String.mk (((s.data.dropWhile isJsWhitespace).reverse.dropWhile
    isJsWhitespace).reverse)

/-- Decimal digit run evaluation used by parseInt; none when there is no
leading digit (the NaN case). -/
def digitsVal (cs : List Char) : Option Nat :=
  let ds := cs.takeWhile (fun c => c.isDigit)
  if ds.isEmpty then none
  else some (ds.foldl (fun a c => a * 10 + (c.toNat - 48)) 0)

/-- parseInt(s, 10): skip leading whitespace, optional sign, longest
leading digit run; none models NaN. -/
def jsParseInt (s : String) : Option Int :=
  let cs := s.data.dropWhile isJsWhitespace
  match cs with
  | '-' :: rest => (digitsVal rest).map (fun n => -(n : Int))
  | '+' :: rest => (digitsVal rest).map (fun n => (n : Int))
  | _ => (digitsVal cs).map (fun n => (n : Int))

/-- Rendering of the parsed timeout inside a template literal; the NaN
case renders as "NaN". -/
def budgetRender : Option Int → String
  | none => "NaN"
  | some n => toString n

/-- parseInt(process.env.PERPLEXITY_TIMEOUT_MS || "300000", 10), the
timeout read performed afresh inside every call. -/
def readTimeoutMs (env : Env) : Option Int :=
  jsParseInt (envStr env.timeoutMsVar "300000")

/-- The opening reasoning-trace tag. -/
def openTagL : List Char := "<think>".data

/-- The closing reasoning-trace tag. -/
def closeTagL : List Char := "</think>".data

/-- First occurrence split: some (before, after) when pat occurs in the
list, where before is the text before the first occurrence and after the
text after it; none when pat does not occur. -/
def splitOnce (pat : List Char) : List Char → Option (List Char × List Char)
  | [] => if pat.isEmpty then some ([], []) else none
  | c :: r =>
      if pat.isPrefixOf (c :: r) then some ([], (c :: r).drop pat.length)
      else (splitOnce pat r).map (fun p => (c :: p.1, p.2))

/-- Fueled scan of content.replace(/<think>[\s\S]*?<\/think>/g, ""): at
each position, an opening tag followed (anywhere later) by a closing tag
deletes the minimally matched span and resumes after it; otherwise the
character is kept.  The fuel is the length of the remaining input, which
always suffices because every step consumes at least one character. -/
def stripThinkFuel : Nat → List Char → List Char
  | 0, l => l
  | _ + 1, [] => []
  | n + 1, c :: rest =>
      if openTagL.isPrefixOf (c :: rest) then
        match splitOnce closeTagL (List.drop 7 (c :: rest)) with
        | some p => stripThinkFuel n p.2
        | none => c :: stripThinkFuel n rest
      else c :: stripThinkFuel n rest

/-- stripThinkingTokens from index.ts / src/server.ts:
content.replace(/<think>[\s\S]*?<\/think>/g, "").trim(). -/
def stripThinkingTokens (content : String) : String :=
  jsTrim (String.mk (stripThinkFuel content.data.length content.data))

/-- The per-element message-validation outcome of the loop body of
validateMessages: none when the element passes all three checks, and
some suffix when it fails, carrying the message text that follows the
index in the thrown error. -/
def messageElemError (m : Jv) : Option String :=
  if !(m.truthy && m.typeofObject) then some ": must be an object"
  else if !((m.get "role").truthy && (m.get "role").isStr) then
    some ": \x27role\x27 must be a string"
  else if (m.get "content").isUndefined || (m.get "content").isNull ||
      !(m.get "content").isStr then
    some ": \x27content\x27 must be a string"
  else none

/-- The indexed validation loop of validateMessages, mirroring the three
sequential checks of the source for each element. -/
def validateLoop (i : Nat) : List Jv → Except String Unit
  | [] => .ok ()
  | m :: rest =>
      if !(m.truthy && m.typeofObject) then
        .error ("Invalid message at index " ++ toString i ++
          ": must be an object")
      else if !((m.get "role").truthy && (m.get "role").isStr) then
        .error ("Invalid message at index " ++ toString i ++
          ": \x27role\x27 must be a string")
      else if (m.get "content").isUndefined || (m.get "content").isNull ||
          !(m.get "content").isStr then
        .error ("Invalid message at index " ++ toString i ++
          ": \x27content\x27 must be a string")
      else validateLoop (i + 1) rest

/-- validateMessages from index.ts and src/server.ts (textually identical
in both files): rejects a non-array outright, then walks the elements in
order, throwing at the first failing element. -/
def validateMessages (messages : Jv) (toolName : String) :
    Except String Unit :=
  match messages with
  | .arr ms => validateLoop 0 ms
  | _ =>
      .error ("Invalid arguments for " ++ toolName ++
        ": \x27messages\x27 must be an array")

/-- Formatting of one search result per loop iteration of
formatSearchResults (0-based loop index i, printed as i + 1).  A null or
undefined element makes the property read result.title throw, which the
first match arms capture. -/
def formatResultsList (i : Nat) : List Jv → Except ErrKind String
  | [] => .ok ""
  | r :: rest =>
      match r with
      | .undefined => .error .typeErr
      | .jnull => .error .typeErr
      | rv =>
          match formatResultsList (i + 1) rest with
          | .error e => .error e
          | .ok tail =>
              .ok (toString (i + 1) ++ ". **" ++
                displayJv (rv.get "title") ++ "**\n" ++
                "   URL: " ++ displayJv (rv.get "url") ++ "\n" ++
                (if (rv.get "snippet").truthy then
                  "   " ++ displayJv (rv.get "snippet") ++ "\n" else "") ++
                (if (rv.get "date").truthy then
                  "   Date: " ++ displayJv (rv.get "date") ++ "\n"
                 else "") ++
                "\n" ++ tail)

/-- formatSearchResults from index.ts / src/server.ts: the sentinel when
data.results is falsy or not an array, otherwise a header line followed
by the formatted results.  The read data.results throws on a null or
undefined body, which the first match arms capture. -/
def formatSearchResults (data : Jv) : Except ErrKind String :=
  match data with
  | .undefined => .error .typeErr
  | .jnull => .error .typeErr
  | d =>
      let results := d.get "results"
      if !results.truthy || !results.isArr then
        .ok "No search results found."
      else
        match formatResultsList 0 results.asArr with
        | .error e => .error e
        | .ok body =>
            .ok ("Found " ++ toString results.asArr.length ++
              " search results:\n\n" ++ body)

/-- True when the path element is the given object field, the comparison
performed by ZodIssue.path.includes(name) (array indices never equal a
string). -/
def zpIs (name : String) : ZPath → Bool
  | .fld s => s = name
  | .idx _ => false

/-- path.includes(name) over a zod issue path. -/
def pathMentions (p : ZIssue) (name : String) : Bool :=
  p.any (zpIs name)

/-- Issue mentioning "message" or "content", the first classification test
of performChatCompletion in src/server.ts. -/
def mentionsMC (p : ZIssue) : Bool :=
  pathMentions p "message" || pathMentions p "content"

/-- Issues of ChatMessageSchema (content: z.string(), role:
z.string().optional()) at a value, with path accumulator pre. -/
def chatMessageIssues (pre : ZIssue) (v : Jv) : List ZIssue :=
  match v with
  | .obj fs =>
      (if (lookupField fs "content").isStr then []
       else [pre ++ [ZPath.fld "content"]]) ++
      (if (lookupField fs "role").isUndefined || (lookupField fs "role").isStr
       then [] else [pre ++ [ZPath.fld "role"]])
  | _ => [pre]

/-- Issues of ChatChoiceSchema (message: ChatMessageSchema, finish_reason
and index optional) at a value. -/
def chatChoiceIssues (pre : ZIssue) (v : Jv) : List ZIssue :=
  match v with
  | .obj fs =>
      chatMessageIssues (pre ++ [ZPath.fld "message"])
        (lookupField fs "message") ++
      (if (lookupField fs "finish_reason").isUndefined ||
          (lookupField fs "finish_reason").isStr then []
       else [pre ++ [ZPath.fld "finish_reason"]]) ++
      (if (lookupField fs "index").isUndefined ||
          (lookupField fs "index").isNum then []
       else [pre ++ [ZPath.fld "index"]])
  | _ => [pre]

/-- Elementwise issues of z.array(ChatChoiceSchema), threading the index. -/
def choiceElemIssues (k : Nat) : List Jv → List ZIssue
  | [] => []
  | x :: rest =>
      chatChoiceIssues [ZPath.fld "choices", ZPath.idx k] x ++
      choiceElemIssues (k + 1) rest

/-- Issues of the choices field: required, an array with min(1). -/
def choicesIssues (c : Jv) : List ZIssue :=
  match c with
  | .arr xs =>
      (if xs.length < 1 then [[ZPath.fld "choices"]] else []) ++
      choiceElemIssues 0 xs
  | _ => [[ZPath.fld "choices"]]

/-- Elementwise issues of z.array(z.string()) for the citations field. -/
def citationElemIssues (k : Nat) : List Jv → List ZIssue
  | [] => []
  | x :: rest =>
      (if x.isStr then []
       else [[ZPath.fld "citations", ZPath.idx k]]) ++
      citationElemIssues (k + 1) rest

/-- Issues of the optional citations field. -/
def citationsIssues (c : Jv) : List ZIssue :=
  match c with
  | .undefined => []
  | .arr xs => citationElemIssues 0 xs
  | _ => [[ZPath.fld "citations"]]

/-- Issues of an optional primitive field, given its type test. -/
def optPrimIssues (name : String) (isOk : Jv → Bool) (v : Jv) :
    List ZIssue :=
  if v.isUndefined || isOk v then [] else [[ZPath.fld name]]

/-- Issues of the optional usage object of TokenUsageSchema (three
optional number fields). -/
def usageIssues (v : Jv) : List ZIssue :=
  match v with
  | .undefined => []
  | .obj fs =>
      (if (lookupField fs "prompt_tokens").isUndefined ||
          (lookupField fs "prompt_tokens").isNum then []
       else [[ZPath.fld "usage", ZPath.fld "prompt_tokens"]]) ++
      (if (lookupField fs "completion_tokens").isUndefined ||
          (lookupField fs "completion_tokens").isNum then []
       else [[ZPath.fld "usage", ZPath.fld "completion_tokens"]]) ++
      (if (lookupField fs "total_tokens").isUndefined ||
          (lookupField fs "total_tokens").isNum then []
       else [[ZPath.fld "usage", ZPath.fld "total_tokens"]])
  | _ => [[ZPath.fld "usage"]]

/-- Issues of ChatCompletionResponseSchema (src/validation.ts) at a parsed
JSON body: a single root issue for a non-object, otherwise the field
issues in schema key order. -/
def chatRespIssues (v : Jv) : List ZIssue :=
  match v with
  | .obj fs =>
      choicesIssues (lookupField fs "choices") ++
      citationsIssues (lookupField fs "citations") ++
      usageIssues (lookupField fs "usage") ++
      optPrimIssues "id" Jv.isStr (lookupField fs "id") ++
      optPrimIssues "model" Jv.isStr (lookupField fs "model") ++
      optPrimIssues "created" Jv.isNum (lookupField fs "created")
  | _ => [[]]

/-- Issues of SearchResultSchema (title and url required strings, snippet
and date optional strings, score an optional number). -/
def searchResultIssues (pre : ZIssue) (v : Jv) : List ZIssue :=
  match v with
  | .obj fs =>
      (if (lookupField fs "title").isStr then []
       else [pre ++ [ZPath.fld "title"]]) ++
      (if (lookupField fs "url").isStr then []
       else [pre ++ [ZPath.fld "url"]]) ++
      (if (lookupField fs "snippet").isUndefined ||
          (lookupField fs "snippet").isStr then []
       else [pre ++ [ZPath.fld "snippet"]]) ++
      (if (lookupField fs "date").isUndefined ||
          (lookupField fs "date").isStr then []
       else [pre ++ [ZPath.fld "date"]]) ++
      (if (lookupField fs "score").isUndefined ||
          (lookupField fs "score").isNum then []
       else [pre ++ [ZPath.fld "score"]])
  | _ => [pre]

/-- Elementwise issues of z.array(SearchResultSchema). -/
def searchResultElemIssues (k : Nat) : List Jv → List ZIssue
  | [] => []
  | x :: rest =>
      searchResultIssues [ZPath.fld "results", ZPath.idx k] x ++
      searchResultElemIssues (k + 1) rest

/-- Issues of the required results field of SearchResponseSchema. -/
def resultsIssues (c : Jv) : List ZIssue :=
  match c with
  | .arr xs => searchResultElemIssues 0 xs
  | _ => [[ZPath.fld "results"]]

/-- Issues of SearchResponseSchema (src/validation.ts) at a parsed JSON
body. -/
def searchRespIssues (v : Jv) : List ZIssue :=
  match v with
  | .obj fs =>
      resultsIssues (lookupField fs "results") ++
      optPrimIssues "query" Jv.isStr (lookupField fs "query") ++
      (match lookupField fs "usage" with
       | .undefined => []
       | .obj ufs =>
           if (lookupField ufs "tokens").isUndefined ||
              (lookupField ufs "tokens").isNum then []
           else [[ZPath.fld "usage", ZPath.fld "tokens"]]
       | _ => [[ZPath.fld "usage"]])
  | _ => [[]]

/-- An HTTP response as observed by the calling code: status line plus the
outcomes of the body readers.  jsonBody is the result of response.json()
(error carries the rendering of the thrown parse exception); textBody is
the result of response.text(), none when it throws. -/
structure HttpResp where
  status : Nat
  statusText : String
  jsonBody : Except String Jv
  textBody : Option String

/-- Outcome of the awaited proxyAwareFetch dispatch: a response, the abort
raised by the timeout controller (an Error named AbortError), or any other
transport failure with the rendering of its cause. -/
inductive FetchOutcome where
  | resp (r : HttpResp)
  | aborted
  | failed (cause : String)

/-- A 2xx response whose JSON body parsed to v. -/
def okJsonResp (v : Jv) : FetchOutcome :=
  .resp { status := 200, statusText := "OK", jsonBody := .ok v,
          textBody := none }

/-- The citation-appending loop: forEach over the citations array,
appending one line per citation with a 1-based index. -/
def citeLineFold (k : Nat) : List Jv → String
  | [] => ""
  | x :: rest =>
      "[" ++ toString (k + 1) ++ "] " ++ displayJv x ++ "\n" ++
      citeLineFold (k + 1) rest

/-- response.ok: status in the 2xx range. -/
def respOk (status : Nat) : Bool :=
  200 ≤ status && status < 300

namespace IndexTs

/-- performChatCompletion from index.ts, from the timeout read to the
returned string.  The API key is checked at process startup in this
variant, not inside the call.  The first component records the setTimeout
and clearTimeout calls made on the taken path; request construction
(URL and body serialization) has no observable effect on the result and
is not modeled. -/
def performChatCompletion (env : Env) (messages : List Message)
    (model : String) (stripThinking : Bool) (outcome : FetchOutcome) :
    List TimerEvent × Except ErrKind String :=
  let TIMEOUT_MS := readTimeoutMs env
  match outcome with
  | .aborted =>
      ([.setT, .clearT], .error (.emsg
        ("Request timeout: Perplexity API did not respond within " ++
         budgetRender TIMEOUT_MS ++
         "ms. Consider increasing PERPLEXITY_TIMEOUT_MS.")))
  | .failed cause =>
      ([.setT, .clearT], .error (.ewrapCause
        "Network error while calling Perplexity API" cause))
  | .resp r =>
      ([.setT, .clearT],
        if !respOk r.status then
          .error (.emsg ("Perplexity API error: " ++ toString r.status ++
            " " ++ r.statusText ++ "\n" ++
            r.textBody.getD "Unable to parse error response"))
        else
          match r.jsonBody with
          | .error cause =>
              .error (.ewrapCause
                "Failed to parse JSON response from Perplexity API" cause)
          | .ok data =>
              match data with
              | .undefined => .error .typeErr
              | .jnull => .error .typeErr
              | d =>
                  let c := d.get "choices"
                  if !c.truthy || !c.isArr || c.asArr.length = 0 then
                    .error (.emsg
                      "Invalid API response: missing or empty choices array")
                  else
                    match c.asArr.headD .undefined with
                    | .undefined => .error .typeErr
                    | .jnull => .error .typeErr
                    | fc =>
                        let m := fc.get "message"
                        if !m.truthy then
                          .error (.emsg
                            "Invalid API response: missing message content")
                        else
                          let cont := m.get "content"
                          if !cont.isStr then
                            .error (.emsg
                              "Invalid API response: missing message content")
                          else
                            let raw := cont.asStr
                            let mc :=
                              if stripThinking then stripThinkingTokens raw
                              else raw
                            let cits := d.get "citations"
                            if cits.truthy && cits.isArr &&
                                cits.asArr.length > 0 then
                              .ok (mc ++ "\n\nCitations:\n" ++
                                citeLineFold 0 cits.asArr)
                            else .ok mc)

/-- performSearch from index.ts, from the timeout read to the formatted
result string. -/
def performSearch (env : Env) (query : String) (maxResults : Int)
    (maxTokensPerPage : Int) (country : Option String)
    (outcome : FetchOutcome) : List TimerEvent × Except ErrKind String :=
  let TIMEOUT_MS := readTimeoutMs env
  match outcome with
  | .aborted =>
      ([.setT, .clearT], .error (.emsg
        ("Request timeout: Perplexity Search API did not respond within " ++
         budgetRender TIMEOUT_MS ++
         "ms. Consider increasing PERPLEXITY_TIMEOUT_MS.")))
  | .failed cause =>
      ([.setT, .clearT], .error (.ewrapCause
        "Network error while calling Perplexity Search API" cause))
  | .resp r =>
      ([.setT, .clearT],
        if !respOk r.status then
          .error (.emsg ("Perplexity Search API error: " ++
            toString r.status ++ " " ++ r.statusText ++ "\n" ++
            r.textBody.getD "Unable to parse error response"))
        else
          match r.jsonBody with
          | .error cause =>
              .error (.ewrapCause
                "Failed to parse JSON response from Perplexity Search API"
                cause)
          | .ok data => formatSearchResults data)

end IndexTs

namespace ServerTs

/-- performChatCompletion from src/server.ts (the Perplexity variant at
lines 254-345), from the key check to the returned string.  The body is
validated with ChatCompletionResponseSchema; a ZodError is classified by
inspecting issue paths. -/
def performChatCompletion (env : Env) (messages : List Message)
    (model : String) (stripThinking : Bool) (outcome : FetchOutcome) :
    List TimerEvent × Except ErrKind String :=
  if !optTruthy env.apiKey then
    ([], .error (.emsg
      "PERPLEXITY_API_KEY environment variable is required"))
  else
    let TIMEOUT_MS := readTimeoutMs env
    match outcome with
    | .aborted =>
        ([.setT, .clearT], .error (.emsg
          ("Request timeout: Perplexity API did not respond within " ++
           budgetRender TIMEOUT_MS ++
           "ms. Consider increasing PERPLEXITY_TIMEOUT_MS.")))
    | .failed cause =>
        ([.setT, .clearT], .error (.ewrapCause
          "Network error while calling Perplexity API" cause))
    | .resp r =>
        ([.setT, .clearT],
          if !respOk r.status then
            .error (.emsg ("Perplexity API error: " ++ toString r.status ++
              " " ++ r.statusText ++ "\n" ++
              r.textBody.getD "Unable to parse error response"))
          else
            match r.jsonBody with
            | .error cause =>
                .error (.ewrapCause
                  "Failed to parse JSON response from Perplexity API" cause)
            | .ok json =>
                let issues := chatRespIssues json
                if !issues.isEmpty then
                  if issues.any mentionsMC then
                    .error (.emsg
                      "Invalid API response: missing message content")
                  else if issues.any (fun i => pathMentions i "choices") then
                    .error (.emsg
                      "Invalid API response: missing or empty choices array")
                  else
                    .error (.ewrapIssues
                      "Failed to parse JSON response from Perplexity API"
                      issues)
                else
                  let raw :=
                    ((((json.get "choices").asArr.headD .undefined).get
                      "message").get "content").asStr
                  let mc :=
                    if stripThinking then stripThinkingTokens raw else raw
                  let cits := json.get "citations"
                  if cits.truthy && cits.isArr && cits.asArr.length > 0 then
                    .ok (mc ++ "\n\nCitations:\n" ++
                      citeLineFold 0 cits.asArr)
                  else .ok mc)

/-- performSearch from src/server.ts, from the key check to the formatted
result string.  The body is validated with SearchResponseSchema; any
parse or shape failure raises the one generic parse error. -/
def performSearch (env : Env) (query : String) (maxResults : Int)
    (maxTokensPerPage : Int) (country : Option String)
    (outcome : FetchOutcome) : List TimerEvent × Except ErrKind String :=
  if !optTruthy env.apiKey then
    ([], .error (.emsg
      "PERPLEXITY_API_KEY environment variable is required"))
  else
    let TIMEOUT_MS := readTimeoutMs env
    match outcome with
    | .aborted =>
        ([.setT, .clearT], .error (.emsg
          ("Request timeout: Perplexity Search API did not respond within "
           ++ budgetRender TIMEOUT_MS ++
           "ms. Consider increasing PERPLEXITY_TIMEOUT_MS.")))
    | .failed cause =>
        ([.setT, .clearT], .error (.ewrapCause
          "Network error while calling Perplexity Search API" cause))
    | .resp r =>
        ([.setT, .clearT],
          if !respOk r.status then
            .error (.emsg ("Perplexity Search API error: " ++
              toString r.status ++ " " ++ r.statusText ++ "\n" ++
              r.textBody.getD "Unable to parse error response"))
          else
            match r.jsonBody with
            | .error cause =>
                .error (.ewrapCause
                  "Failed to parse JSON response from Perplexity Search API"
                  cause)
            | .ok json =>
                let issues := searchRespIssues json
                if !issues.isEmpty then
                  .error (.ewrapIssues
                    "Failed to parse JSON response from Perplexity Search API"
                    issues)
                else formatSearchResults json)

end ServerTs

/-- Conversion of a validated messages array into typed messages, the
effect of the asserts clause of validateMessages. -/
def jvToMessages (v : Jv) : List Message :=
  v.asArr.map (fun m => { role := (m.get "role").asStr,
                          content := (m.get "content").asStr })

/-- The perplexity_ask tool handler registered by createPerplexityServer
in src/server.ts: validate the messages argument, then call
performChatCompletion with model sonar-pro and no stripping. -/
def perplexityAskHandler (env : Env) (messagesArg : Jv)
    (outcome : FetchOutcome) : List TimerEvent × Except ErrKind String :=
  match validateMessages messagesArg "perplexity_ask" with
  | .error e => ([], .error (.emsg e))
  | .ok _ =>
      ServerTs.performChatCompletion env (jvToMessages messagesArg)
        "sonar-pro" false outcome

/-- An environment holding a usable key and no timeout override. -/
def envOk : Env :=
  { apiKey := some "test-api-key", timeoutMsVar := none }

/-- A well-formed completion body with the given content and citation
list. -/
def canonicalChatBody (content : String) (cits : List String) : Jv :=
  .obj [("choices", .arr [.obj [("message",
          .obj [("content", .str content)])]]),
        ("citations", .arr (cits.map .str))]

/-- A completion body whose single choice carries the given content and
whose citations field carries an arbitrary value. -/
def chatBodyWithCits (content : String) (cv : Jv) : Jv :=
  .obj [("choices", .arr [.obj [("message",
          .obj [("content", .str content)])]]),
        ("citations", cv)]

/-- Missing-or-empty test on the choices field of a parsed body: the
field is absent, or it is present as the empty array. -/
def choicesMissingOrEmpty (c : Jv) : Bool :=
  c.isUndefined || (c.isArr && c.asArr.isEmpty)

/-- True exactly for the generic parse errors of the chat-completion
path: the wrap of a JSON-level failure or of an unclassified ZodError,
both carrying the literal prefix used by performChatCompletion. -/
def isGenericChatParseError : ErrKind → Bool
  | .ewrapCause p _ => p = "Failed to parse JSON response from Perplexity API"
  | .ewrapIssues p _ => p = "Failed to parse JSON response from Perplexity API"
  | _ => false

/-- One citation line of the claimed trailing block: a 1-based index in
brackets, the url, and a newline. -/
def citeLinesSpec : Nat → List String → List String
  | _, [] => []
  | k, u :: rest =>
      ("[" ++ toString (k + 1) ++ "] " ++ u ++ "\n") :: citeLinesSpec (k + 1) rest

/-- Concatenation of a list of lines. -/
def strJoin : List String → String
  | [] => ""
  | s :: rest => s ++ strJoin rest

/-- Modelled from the spec: the live-session map of the multi-session
Transport Session Manager of spec section 4.5.  That variant of the HTTP
entry point is not among the sources under src/ (src/http.ts is the
stateless variant, whose session validation happens inside the SDK
transport, outside this repository); the map from session identifiers to
registered channels is modelled from the words of the spec. -/
def SessionMap : Type := List (String × Nat)

/-- Lookup of a session identifier in the live-session map. -/
def sessionLookup (m : SessionMap) (sid : String) : Option Nat :=
  (m.find? (fun p => p.1 = sid)).map (fun p => p.2)

/-- Outcome of a read-side (server-to-client push) request. -/
inductive ReadSideResult where
  | attached (channel : Nat)
  | rejected (status : Nat) (body : String)
deriving DecidableEq, Repr

/-- Modelled from the spec: handling of a read-side request by the
multi-session Transport Session Manager.  A request that presents no
session identifier, or one that is not registered in the live-session
map, is rejected with HTTP 400 and a descriptive body; a registered
identifier reuses the registered channel. -/
def handleReadSide (sessionHeader : Option String) (sessions : SessionMap) :
    ReadSideResult :=
  match sessionHeader with
  | none => .rejected 400 "Bad Request: invalid or missing session ID"
  | some sid =>
      match sessionLookup sessions sid with
      | some ch => .attached ch
      | none => .rejected 400 "Bad Request: invalid or missing session ID"

end PerplexityMcp

deriving instance DecidableEq for Except

namespace PerplexityMcp

lemma splitOnce_none_tail {pat : List Char} {c : Char} {r : List Char}
    (h : splitOnce pat (c :: r) = none) : splitOnce pat r = none := by
  by_cases hp : pat.isPrefixOf (c :: r) = true
  · simp [splitOnce, hp] at h
  · rw [Bool.not_eq_true] at hp
    simp only [splitOnce, hp, Bool.false_eq_true, if_false,
      Option.map_eq_none'] at h
    exact h

lemma splitOnce_none_head {pat : List Char} {c : Char} {r : List Char}
    (h : splitOnce pat (c :: r) = none) :
    pat.isPrefixOf (c :: r) = false := by
  cases hb : pat.isPrefixOf (c :: r) with
  | false => rfl
  | true => simp [splitOnce, hb] at h

lemma splitOnce_none_drop (pat : List Char) {l : List Char}
    (h : splitOnce pat l = none) :
    ∀ k, splitOnce pat (l.drop k) = none := by
  induction l with
  | nil => intro k; simpa using h
  | cons c r ih =>
      intro k
      cases k with
      | zero => simpa using h
      | succ k =>
          simp only [List.drop_succ_cons]
          exact ih (splitOnce_none_tail h) k

lemma stripThinkFuel_of_no_open :
    ∀ (n : Nat) (l : List Char), splitOnce openTagL l = none →
      stripThinkFuel n l = l := by
  intro n
  induction n with
  | zero => intro l _; rfl
  | succ n ih =>
      intro l h
      cases l with
      | nil => rfl
      | cons c r =>
          have hp := splitOnce_none_head h
          simp only [stripThinkFuel, hp, Bool.false_eq_true, if_false]
          exact congrArg (c :: ·) (ih r (splitOnce_none_tail h))

lemma stripThinkFuel_of_no_close :
    ∀ (n : Nat) (l : List Char), splitOnce closeTagL l = none →
      stripThinkFuel n l = l := by
  intro n
  induction n with
  | zero => intro l _; rfl
  | succ n ih =>
      intro l h
      cases l with
      | nil => rfl
      | cons c r =>
          have htail : splitOnce closeTagL r = none := splitOnce_none_tail h
          cases ho : openTagL.isPrefixOf (c :: r) with
          | true =>
              have hd : splitOnce closeTagL (List.drop 7 (c :: r)) = none :=
                splitOnce_none_drop closeTagL h 7
              simp only [stripThinkFuel, ho, if_true, hd]
              exact congrArg (c :: ·) (ih r htail)
          | false =>
              simp only [stripThinkFuel, ho, Bool.false_eq_true, if_false]
              exact congrArg (c :: ·) (ih r htail)

/-- An occurrence-free input is exactly an input where splitOnce finds
nothing: the scan returns none iff the pattern is a prefix of no suffix
of the input. -/
lemma splitOnce_eq_none_iff {pat : List Char} (hp : pat ≠ [])
    (l : List Char) :
    splitOnce pat l = none ↔
      ∀ k, pat.isPrefixOf (l.drop k) = false := by
  constructor
  · intro h k
    have h2 := splitOnce_none_drop pat h k
    cases hd : l.drop k with
    | nil =>
        cases pat with
        | nil => exact absurd rfl hp
        | cons p ps => rfl
    | cons c r =>
        rw [hd] at h2
        exact splitOnce_none_head h2
  · intro h
    induction l with
    | nil =>
        cases pat with
        | nil => exact absurd rfl hp
        | cons p ps => simp [splitOnce]
    | cons c r ih =>
        have h0 : pat.isPrefixOf (c :: r) = false := by simpa using h 0
        have hr : ∀ k, pat.isPrefixOf (r.drop k) = false := by
          intro k; simpa using h (k + 1)
        simp [splitOnce, h0, ih hr]

/-- Claim C2 (corrected).  Stripping an input with no occurrence of the
opening tag returns the trimmed input; stripping an input with no
occurrence of the closing tag (in particular one with an unmatched
opening tag) also returns the trimmed input, with no span removed.  The
original claim that the unmatched case is byte-for-byte unchanged fails
because the code always applies trim, see C2_counterexample. -/
theorem C2_strip_behavior :
    (∀ s : String, splitOnce openTagL s.data = none →
        stripThinkingTokens s = jsTrim s) ∧
    (∀ s : String, splitOnce closeTagL s.data = none →
        stripThinkingTokens s = jsTrim s) := by
  constructor
  · intro s h
    unfold stripThinkingTokens
    rw [stripThinkFuel_of_no_open _ _ h]
  · intro s h
    unfold stripThinkingTokens
    rw [stripThinkFuel_of_no_close _ _ h]

/-- Claim C2, counterexample to the stated form: an input that contains
an unmatched opening tag and no closing tag is not returned byte for
byte; its leading whitespace is trimmed away. -/
theorem C2_counterexample :
    stripThinkingTokens " <think>x" ≠ " <think>x" ∧
    (splitOnce openTagL (" <think>x").data).isSome = true ∧
    splitOnce closeTagL (" <think>x").data = none := by
  decide

/-- Claim C2, witness for C2_strip_behavior at concrete inputs. -/
theorem C2_witness :
    stripThinkingTokens "  no tags here  " = jsTrim "  no tags here  " ∧
    stripThinkingTokens " <think>x" = jsTrim " <think>x" :=
  ⟨C2_strip_behavior.1 _ (by decide), C2_strip_behavior.2 _ (by decide)⟩

lemma validateLoop_cons_ok {m : Jv} (h : messageElemError m = none)
    (i : Nat) (rest : List Jv) :
    validateLoop i (m :: rest) = validateLoop (i + 1) rest := by
  unfold messageElemError at h
  conv_lhs => rw [validateLoop]
  split_ifs at h ⊢ with h1 h2 h3 <;> simp_all

lemma validateLoop_cons_err {m : Jv} {msg : String}
    (h : messageElemError m = some msg) (i : Nat) (rest : List Jv) :
    validateLoop i (m :: rest) =
      .error ("Invalid message at index " ++ toString i ++ msg) := by
  unfold messageElemError at h
  unfold validateLoop
  split_ifs at h ⊢ with h1 h2 h3 <;>
    first
    | (injection h with hh; rw [← hh])
    | injection h

lemma validateLoop_all_ok {ms : List Jv}
    (h : ∀ x ∈ ms, messageElemError x = none) :
    ∀ i, validateLoop i ms = .ok () := by
  induction ms with
  | nil => intro i; rfl
  | cons m rest ih =>
      intro i
      rw [validateLoop_cons_ok (h m (List.mem_cons_self _ _)) i]
      exact ih (fun x hx => h x (List.mem_cons_of_mem _ hx)) (i + 1)

lemma validateLoop_append_ok {pre : List Jv}
    (h : ∀ x ∈ pre, messageElemError x = none) :
    ∀ (i : Nat) (rest : List Jv),
      validateLoop i (pre ++ rest) = validateLoop (i + pre.length) rest := by
  induction pre with
  | nil => intro i rest; simp
  | cons p pre ih =>
      intro i rest
      rw [List.cons_append,
        validateLoop_cons_ok (h p (List.mem_cons_self _ _)) i,
        ih (fun x hx => h x (List.mem_cons_of_mem _ hx)) (i + 1) rest]
      congr 1
      simp [List.length_cons]
      omega

lemma validateLoop_isOk (ms : List Jv) :
    ∀ i, (validateLoop i ms).isOk =
      ms.all (fun x => (messageElemError x).isNone) := by
  induction ms with
  | nil => intro i; rfl
  | cons m rest ih =>
      intro i
      cases hm : messageElemError m with
      | none =>
          rw [validateLoop_cons_ok hm]
          simp [List.all_cons, hm, ih]
      | some msg =>
          rw [validateLoop_cons_err hm]
          simp [List.all_cons, hm, Except.isOk, Except.toBool]

/-- Claim C3, counterexample to the stated form: in the array whose
element 0 has an empty-string role (an object with a string role and a
string content, hence not offending in the sense enumerated by the claim)
and whose element 1 lacks a role (the first offending element, at index
1), validation fails naming index 0, not the index of the first offending
element. -/
theorem C3_counterexample :
    validateMessages
        (.arr [.obj [("role", .str ""), ("content", .str "a")],
               .obj [("content", .str "b")]]) "perplexity_ask" =
      .error "Invalid message at index 0: \x27role\x27 must be a string" ∧
    (Jv.obj [("role", .str ""), ("content", .str "a")]).isObj = true ∧
    ((Jv.obj [("role", .str ""), ("content", .str "a")]).get "role").isStr
      = true ∧
    ((Jv.obj [("role", .str ""), ("content", .str "a")]).get
      "content").isStr = true ∧
    messageElemError (.obj [("content", .str "b")]) =
      some ": \x27role\x27 must be a string" := by
  decide

/-- Claim C3 (corrected).  Validation of a non-array fails with the
index-free message naming the tool; validation of an array fails at the
first element offending in the sense of the code (not an object, role
missing, empty, or not a string, or content missing, null, or not a
string), naming its 0-based index and the failed check; an array all of
whose elements pass is accepted.  The original claim used the weaker
offense notion that admits an empty-string role, see C3_counterexample. -/
theorem C3_first_failure :
    (∀ (v : Jv) (tool : String), v.isArr = false →
        validateMessages v tool =
          .error ("Invalid arguments for " ++ tool ++
            ": \x27messages\x27 must be an array")) ∧
    (∀ (pre : List Jv) (m : Jv) (post : List Jv) (tool msg : String),
        (∀ x ∈ pre, messageElemError x = none) →
        messageElemError m = some msg →
        validateMessages (.arr (pre ++ m :: post)) tool =
          .error ("Invalid message at index " ++ toString pre.length ++
            msg)) ∧
    (∀ (ms : List Jv) (tool : String),
        (∀ x ∈ ms, messageElemError x = none) →
        validateMessages (.arr ms) tool = .ok ()) := by
  refine ⟨?_, ?_, ?_⟩
  · intro v tool h
    cases v with
    | arr xs => simp [Jv.isArr] at h
    | undefined => rfl
    | jnull => rfl
    | bool b => rfl
    | num n => rfl
    | str s => rfl
    | obj fs => rfl
  · intro pre m post tool msg hpre hm
    show validateLoop 0 (pre ++ m :: post) = _
    rw [validateLoop_append_ok hpre 0 (m :: post),
      validateLoop_cons_err hm, Nat.zero_add]
  · intro ms tool h
    exact validateLoop_all_ok h 0

/-- Claim C3, witness for C3_first_failure at concrete inputs. -/
theorem C3_witness :
    validateMessages (.str "nope") "perplexity_ask" =
      .error ("Invalid arguments for " ++ "perplexity_ask" ++
        ": \x27messages\x27 must be an array") ∧
    validateMessages
        (.arr ([.obj [("role", .str "user"), ("content", .str "hi")]] ++
          Jv.num 7 :: [])) "perplexity_ask" =
      .error ("Invalid message at index " ++
        toString ([Jv.obj [("role", .str "user"), ("content", .str "hi")]]
          : List Jv).length ++ ": must be an object") ∧
    validateMessages
        (.arr [.obj [("role", .str "user"), ("content", .str "hi")]])
        "perplexity_ask" = .ok () :=
  ⟨C3_first_failure.1 _ _ (by decide),
   C3_first_failure.2.1 _ _ _ _ _ (by decide) (by decide),
   C3_first_failure.2.2 _ _ (by decide)⟩

lemma jv_isStr_eq {v : Jv} (h : v.isStr = true) : v = .str v.asStr := by
  cases v <;> simp_all [Jv.isStr, Jv.asStr]

lemma messageElemError_empty_role {m : Jv} (h1 : m.isObj = true)
    (h2 : (m.get "role").isStr = true) (h3 : (m.get "role").asStr = "") :
    messageElemError m = some ": \x27role\x27 must be a string" := by
  have hrole : m.get "role" = .str "" := by
    have h4 := jv_isStr_eq h2
    rw [h3] at h4
    exact h4
  cases m with
  | obj fs =>
      unfold messageElemError
      rw [if_neg (by simp [Jv.truthy, Jv.typeofObject]),
        if_pos (by simp [hrole, Jv.truthy])]
  | undefined => simp [Jv.isObj] at h1
  | jnull => simp [Jv.isObj] at h1
  | bool b => simp [Jv.isObj] at h1
  | num n => simp [Jv.isObj] at h1
  | str s => simp [Jv.isObj] at h1
  | arr xs => simp [Jv.isObj] at h1

/-- Claim C9 (confirmed).  An element whose role is the empty string (a
present, string-typed value) is rejected: when every earlier element
passes the checks of the code, validation fails at its index with the
role message, and in general any array containing such an element never
validates — the truthiness check !msg.role conflates an empty role with
a missing one. -/
theorem C9_empty_role_rejected :
    (∀ (pre : List Jv) (m : Jv) (post : List Jv) (tool : String),
        (∀ x ∈ pre, messageElemError x = none) →
        m.isObj = true → (m.get "role").isStr = true →
        (m.get "role").asStr = "" →
        validateMessages (.arr (pre ++ m :: post)) tool =
          .error ("Invalid message at index " ++ toString pre.length ++
            ": \x27role\x27 must be a string")) ∧
    (∀ (ms : List Jv) (tool : String),
        (ms.any (fun x => x.isObj && (x.get "role").isStr &&
          ((x.get "role").asStr = ""))) = true →
        (validateMessages (.arr ms) tool).isOk = false) := by
  constructor
  · intro pre m post tool hpre h1 h2 h3
    show validateLoop 0 (pre ++ m :: post) = _
    rw [validateLoop_append_ok hpre 0 (m :: post),
      validateLoop_cons_err (messageElemError_empty_role h1 h2 h3),
      Nat.zero_add]
  · intro ms tool h
    show (validateLoop 0 ms).isOk = false
    rw [validateLoop_isOk ms 0]
    obtain ⟨x, hmem, hx⟩ := List.any_eq_true.mp h
    rw [Bool.and_eq_true, Bool.and_eq_true] at hx
    obtain ⟨⟨hx1, hx2⟩, hx3⟩ := hx
    rw [List.all_eq_false]
    refine ⟨x, hmem, ?_⟩
    rw [messageElemError_empty_role hx1 hx2 (by simpa using hx3)]
    simp

/-- Claim C9, witness for C9_empty_role_rejected at a concrete input. -/
theorem C9_witness :
    validateMessages
        (.arr ([] ++ Jv.obj [("role", .str ""), ("content", .str "x")]
          :: [])) "perplexity_reason" =
      .error ("Invalid message at index " ++ toString ([] : List Jv).length
        ++ ": \x27role\x27 must be a string") ∧
    (validateMessages
        (.arr [.obj [("role", .str "user"), ("content", .str "ok")],
               .obj [("role", .str ""), ("content", .str "x")]])
        "perplexity_ask").isOk = false :=
  ⟨C9_empty_role_rejected.1 [] _ [] _ (by decide) (by decide) (by decide)
    (by decide),
   C9_empty_role_rejected.2 _ _ (by decide)⟩

/-- Claim C10 (confirmed).  The empty messages array passes validation
for every tool name, and the perplexity_ask handler applied to an empty
messages array behaves exactly as performChatCompletion on the dispatch
outcome: validation does not block the call, which proceeds to the
outbound request. -/
theorem C10_empty_messages_pass :
    (∀ tool : String, validateMessages (.arr []) tool = .ok ()) ∧
    (∀ (env : Env) (outcome : FetchOutcome),
        perplexityAskHandler env (.arr []) outcome =
          ServerTs.performChatCompletion env [] "sonar-pro" false
            outcome) := by
  exact ⟨fun _ => rfl, fun _ _ => rfl⟩

/-- Claim C7 (confirmed).  On every execution path of the four
network-calling operations, the number of setTimeout calls equals the
number of clearTimeout calls: a call that arms the per-call timer always
clears it, on the success path and on every failure path, so no call
returns or throws with its timer still pending. -/
theorem C7_timer_balanced :
    ∀ (env : Env) (ms : List Message) (model : String) (flag : Bool)
      (q : String) (mr mt : Int) (c : Option String)
      (outcome : FetchOutcome),
      ((ServerTs.performChatCompletion env ms model flag
          outcome).1.count .setT =
        (ServerTs.performChatCompletion env ms model flag
          outcome).1.count .clearT) ∧
      ((ServerTs.performSearch env q mr mt c outcome).1.count .setT =
        (ServerTs.performSearch env q mr mt c outcome).1.count .clearT) ∧
      ((IndexTs.performChatCompletion env ms model flag
          outcome).1.count .setT =
        (IndexTs.performChatCompletion env ms model flag
          outcome).1.count .clearT) ∧
      ((IndexTs.performSearch env q mr mt c outcome).1.count .setT =
        (IndexTs.performSearch env q mr mt c outcome).1.count .clearT) := by
  intro env ms model flag q mr mt c outcome
  refine ⟨?_, ?_, ?_, ?_⟩ <;>
    cases hk : optTruthy env.apiKey <;>
      cases outcome <;>
        simp [ServerTs.performChatCompletion, ServerTs.performSearch,
          IndexTs.performChatCompletion, IndexTs.performSearch, hk,
          List.count_cons, List.count_nil]

/-- Claim C6 (confirmed).  For both variants and both operations, an
aborted dispatch fails with the timeout message that names the budget
value parsed from configuration at call time, an otherwise-failed
dispatch fails with the network error wrapping the cause, and the parsed
budget is 300000 when the variable is unset (or set empty). -/
theorem C6_timeout_classification :
    (∀ (env : Env) (ms : List Message) (model : String) (flag : Bool),
        optTruthy env.apiKey = true →
        ServerTs.performChatCompletion env ms model flag .aborted =
          ([.setT, .clearT], .error (.emsg
            ("Request timeout: Perplexity API did not respond within " ++
             budgetRender (readTimeoutMs env) ++
             "ms. Consider increasing PERPLEXITY_TIMEOUT_MS.")))) ∧
    (∀ (env : Env) (ms : List Message) (model : String) (flag : Bool)
        (cause : String),
        optTruthy env.apiKey = true →
        ServerTs.performChatCompletion env ms model flag (.failed cause) =
          ([.setT, .clearT], .error (.ewrapCause
            "Network error while calling Perplexity API" cause))) ∧
    (∀ (env : Env) (q : String) (mr mt : Int) (c : Option String),
        optTruthy env.apiKey = true →
        ServerTs.performSearch env q mr mt c .aborted =
          ([.setT, .clearT], .error (.emsg
            ("Request timeout: Perplexity Search API did not respond within "
             ++ budgetRender (readTimeoutMs env) ++
             "ms. Consider increasing PERPLEXITY_TIMEOUT_MS.")))) ∧
    (∀ (env : Env) (q : String) (mr mt : Int) (c : Option String)
        (cause : String),
        optTruthy env.apiKey = true →
        ServerTs.performSearch env q mr mt c (.failed cause) =
          ([.setT, .clearT], .error (.ewrapCause
            "Network error while calling Perplexity Search API" cause))) ∧
    (∀ (env : Env) (ms : List Message) (model : String) (flag : Bool),
        IndexTs.performChatCompletion env ms model flag .aborted =
          ([.setT, .clearT], .error (.emsg
            ("Request timeout: Perplexity API did not respond within " ++
             budgetRender (readTimeoutMs env) ++
             "ms. Consider increasing PERPLEXITY_TIMEOUT_MS.")))) ∧
    (∀ (env : Env) (ms : List Message) (model : String) (flag : Bool)
        (cause : String),
        IndexTs.performChatCompletion env ms model flag (.failed cause) =
          ([.setT, .clearT], .error (.ewrapCause
            "Network error while calling Perplexity API" cause))) ∧
    (∀ (env : Env) (q : String) (mr mt : Int) (c : Option String),
        IndexTs.performSearch env q mr mt c .aborted =
          ([.setT, .clearT], .error (.emsg
            ("Request timeout: Perplexity Search API did not respond within "
             ++ budgetRender (readTimeoutMs env) ++
             "ms. Consider increasing PERPLEXITY_TIMEOUT_MS.")))) ∧
    (∀ (env : Env) (q : String) (mr mt : Int) (c : Option String)
        (cause : String),
        IndexTs.performSearch env q mr mt c (.failed cause) =
          ([.setT, .clearT], .error (.ewrapCause
            "Network error while calling Perplexity Search API" cause))) ∧
    (∀ k : Option String,
        readTimeoutMs { apiKey := k, timeoutMsVar := none } =
          some 300000) ∧
    (∀ k : Option String,
        readTimeoutMs { apiKey := k, timeoutMsVar := some "" } =
          some 300000) := by
  refine ⟨?_, ?_, ?_, ?_, ?_, ?_, ?_, ?_, ?_, ?_⟩
  · intro env ms model flag h
    simp [ServerTs.performChatCompletion, h]
  · intro env ms model flag cause h
    simp [ServerTs.performChatCompletion, h]
  · intro env q mr mt c h
    simp [ServerTs.performSearch, h]
  · intro env q mr mt c cause h
    simp [ServerTs.performSearch, h]
  · intro env ms model flag
    simp [IndexTs.performChatCompletion]
  · intro env ms model flag cause
    simp [IndexTs.performChatCompletion]
  · intro env q mr mt c
    simp [IndexTs.performSearch]
  · intro env q mr mt c cause
    simp [IndexTs.performSearch]
  · intro k; rfl
  · intro k; rfl

lemma resultsIssues_non_arr {v : Jv} (h : v.isArr = false) :
    resultsIssues v = [[ZPath.fld "results"]] := by
  cases v <;> simp_all [Jv.isArr, resultsIssues]

lemma formatSearchResults_sentinel {fs : List (String × Jv)}
    (h : (lookupField fs "results").isArr = false) :
    formatSearchResults (.obj fs) = .ok "No search results found." := by
  simp [formatSearchResults, Jv.get, h]

/-- Claim C1, counterexample to the stated form: the 2xx search body
(the empty object, whose results field is missing) makes the
zod-validated performSearch of src/server.ts fail with the generic parse
error instead of returning the sentinel string. -/
theorem C1_counterexample :
    (ServerTs.performSearch envOk "q" 10 1024 none
        (okJsonResp (.obj []))).2 =
      .error (.ewrapIssues
        "Failed to parse JSON response from Perplexity Search API"
        [[ZPath.fld "results"]]) ∧
    ((Jv.obj []).get "results").isArr = false := by
  decide

/-- Claim C1 (corrected).  formatSearchResults returns the sentinel for
every object body whose results field is missing or not an array, and the
untyped performSearch of index.ts returns the sentinel for every 2xx
response with such a body; the zod-validated performSearch of
src/server.ts instead fails with the generic parse error on such a body,
because SearchResponseSchema requires results to be an array before
formatting ever runs. -/
theorem C1_search_sentinel :
    (∀ fs : List (String × Jv),
        (lookupField fs "results").isArr = false →
        formatSearchResults (.obj fs) = .ok "No search results found.") ∧
    (∀ (env : Env) (q : String) (mr mt : Int) (c : Option String)
        (fs : List (String × Jv)),
        (lookupField fs "results").isArr = false →
        IndexTs.performSearch env q mr mt c (okJsonResp (.obj fs)) =
          ([.setT, .clearT], .ok "No search results found.")) ∧
    (∀ (env : Env) (q : String) (mr mt : Int) (c : Option String)
        (fs : List (String × Jv)),
        optTruthy env.apiKey = true →
        (lookupField fs "results").isArr = false →
        ServerTs.performSearch env q mr mt c (okJsonResp (.obj fs)) =
          ([.setT, .clearT], .error (.ewrapIssues
            "Failed to parse JSON response from Perplexity Search API"
            (searchRespIssues (.obj fs))))) := by
  refine ⟨?_, ?_, ?_⟩
  · intro fs h
    exact formatSearchResults_sentinel h
  · intro env q mr mt c fs h
    simp [IndexTs.performSearch, okJsonResp, respOk,
      formatSearchResults_sentinel h]
  · intro env q mr mt c fs hk h
    have hne : (searchRespIssues (.obj fs)).isEmpty = false := by
      simp [searchRespIssues, resultsIssues_non_arr h]
    simp [ServerTs.performSearch, okJsonResp, respOk, hk, hne]

/-- Claim C1, witness for C1_search_sentinel at concrete inputs. -/
theorem C1_witness :
    formatSearchResults (.obj []) = .ok "No search results found." ∧
    IndexTs.performSearch envOk "q" 10 1024 none (okJsonResp (.obj [])) =
      ([.setT, .clearT], .ok "No search results found.") ∧
    ServerTs.performSearch envOk "q" 10 1024 none
        (okJsonResp (.obj [("results", .str "zzz")])) =
      ([.setT, .clearT], .error (.ewrapIssues
        "Failed to parse JSON response from Perplexity Search API"
        (searchRespIssues (.obj [("results", .str "zzz")])))) :=
  ⟨C1_search_sentinel.1 [] (by decide),
   C1_search_sentinel.2.1 envOk "q" 10 1024 none [] (by decide),
   C1_search_sentinel.2.2 envOk "q" 10 1024 none _ (by decide)
     (by decide)⟩

lemma displayJv_str (s : String) : displayJv (.str s) = s := by
  unfold displayJv
  cases jvDepth (Jv.str s) <;> rfl

lemma citationElemIssues_map_str :
    ∀ (us : List String) (k : Nat),
      citationElemIssues k (us.map Jv.str) = [] := by
  intro us
  induction us with
  | nil => intro k; rfl
  | cons u us ih => intro k; simp [citationElemIssues, Jv.isStr, ih]

lemma citationsIssues_other {v : Jv} (h1 : v.isUndefined = false)
    (h2 : v.isArr = false) :
    citationsIssues v = [[ZPath.fld "citations"]] := by
  cases v <;> simp_all [citationsIssues, Jv.isUndefined, Jv.isArr]

lemma chatRespIssues_withCits (content : String) (cv : Jv) :
    chatRespIssues (chatBodyWithCits content cv) = citationsIssues cv := by
  simp [chatBodyWithCits, chatRespIssues, lookupField, choicesIssues,
    choiceElemIssues, chatChoiceIssues, chatMessageIssues, usageIssues,
    optPrimIssues, Jv.isStr, Jv.isUndefined]

lemma citeLineFold_map_str :
    ∀ (us : List String) (k : Nat),
      citeLineFold k (us.map Jv.str) = strJoin (citeLinesSpec k us) := by
  intro us
  induction us with
  | nil => intro k; rfl
  | cons u us ih =>
      intro k
      simp [citeLineFold, citeLinesSpec, strJoin, displayJv_str, ih]

lemma citeLinesSpec_length :
    ∀ (k : Nat) (us : List String),
      (citeLinesSpec k us).length = us.length := by
  intro k us
  induction us generalizing k with
  | nil => rfl
  | cons u us ih => simp [citeLinesSpec, ih]

/-- Claim C5, counterexample to the stated form: a 2xx completion body
with well-formed content "x" and a non-array citations value makes the
zod-validated performChatCompletion of src/server.ts fail with its
generic parse error, instead of returning the content with no citation
block (which the untyped variant of index.ts does return). -/
theorem C5_counterexample :
    ServerTs.performChatCompletion envOk [] "sonar-pro" false
        (okJsonResp (chatBodyWithCits "x" (.str "nope"))) =
      ([.setT, .clearT], .error (.ewrapIssues
        "Failed to parse JSON response from Perplexity API"
        [[ZPath.fld "citations"]])) ∧
    IndexTs.performChatCompletion envOk [] "sonar-pro" false
        (okJsonResp (chatBodyWithCits "x" (.str "nope"))) =
      ([.setT, .clearT], .ok "x") := by
  decide

/-- Claim C5 (corrected).  For a well-formed body with content and a
non-empty list of N citation strings, both variants return the (possibly
stripped) content followed by a blank line, the header Citations:, and
one line per citation of the form [i] url with 1-based indices in order
(citeLinesSpec, whose length equals N); with citations absent or the
empty array, both variants return exactly the content, with nothing
appended.  With citations present but not an array, the untyped variant
returns exactly the content, while the zod-validated variant fails with
its generic parse error instead of returning a string. -/
theorem C5_citation_block :
    (∀ (env : Env) (ms : List Message) (model : String) (flag : Bool)
        (content : String) (us : List String),
        optTruthy env.apiKey = true → us ≠ [] →
        ServerTs.performChatCompletion env ms model flag
            (okJsonResp (canonicalChatBody content us)) =
          ([.setT, .clearT], .ok
            ((if flag then stripThinkingTokens content else content) ++
              "\n\nCitations:\n" ++ strJoin (citeLinesSpec 0 us)))) ∧
    (∀ (env : Env) (ms : List Message) (model : String) (flag : Bool)
        (content : String) (us : List String),
        us ≠ [] →
        IndexTs.performChatCompletion env ms model flag
            (okJsonResp (canonicalChatBody content us)) =
          ([.setT, .clearT], .ok
            ((if flag then stripThinkingTokens content else content) ++
              "\n\nCitations:\n" ++ strJoin (citeLinesSpec 0 us)))) ∧
    (∀ (k : Nat) (us : List String),
        (citeLinesSpec k us).length = us.length) ∧
    (∀ (env : Env) (ms : List Message) (model : String) (flag : Bool)
        (content : String) (cv : Jv),
        (cv.truthy && cv.isArr && decide (cv.asArr.length > 0)) = false →
        IndexTs.performChatCompletion env ms model flag
            (okJsonResp (chatBodyWithCits content cv)) =
          ([.setT, .clearT], .ok
            (if flag then stripThinkingTokens content else content))) ∧
    (∀ (env : Env) (ms : List Message) (model : String) (flag : Bool)
        (content : String),
        optTruthy env.apiKey = true →
        ServerTs.performChatCompletion env ms model flag
            (okJsonResp (chatBodyWithCits content .undefined)) =
          ([.setT, .clearT], .ok
            (if flag then stripThinkingTokens content else content))) ∧
    (∀ (env : Env) (ms : List Message) (model : String) (flag : Bool)
        (content : String),
        optTruthy env.apiKey = true →
        ServerTs.performChatCompletion env ms model flag
            (okJsonResp (chatBodyWithCits content (.arr []))) =
          ([.setT, .clearT], .ok
            (if flag then stripThinkingTokens content else content))) ∧
    (∀ (env : Env) (ms : List Message) (model : String) (flag : Bool)
        (content : String) (cv : Jv),
        optTruthy env.apiKey = true →
        cv.isUndefined = false → cv.isArr = false →
        ServerTs.performChatCompletion env ms model flag
            (okJsonResp (chatBodyWithCits content cv)) =
          ([.setT, .clearT], .error (.ewrapIssues
            "Failed to parse JSON response from Perplexity API"
            [[ZPath.fld "citations"]]))) := by
  refine ⟨?_, ?_, citeLinesSpec_length, ?_, ?_, ?_, ?_⟩
  · intro env ms model flag content us hk hus
    have hiss : chatRespIssues
        (Jv.obj [("choices", Jv.arr [Jv.obj [("message",
            Jv.obj [("content", Jv.str content)])]]),
          ("citations", Jv.arr (us.map Jv.str))]) = [] := by
      have h2 := chatRespIssues_withCits content (.arr (us.map .str))
      simp only [chatBodyWithCits] at h2
      rw [h2]
      simp [citationsIssues, citationElemIssues_map_str]
    have hpos : 0 < us.length := List.length_pos.mpr hus
    simp [ServerTs.performChatCompletion, okJsonResp, respOk, hk, hiss,
      hpos, canonicalChatBody, Jv.get, lookupField, Jv.truthy, Jv.isArr,
      Jv.asArr, Jv.asStr, citeLineFold_map_str]
  · intro env ms model flag content us hus
    have hpos : 0 < us.length := List.length_pos.mpr hus
    have hne : us.length ≠ 0 := Nat.pos_iff_ne_zero.mp hpos
    simp [IndexTs.performChatCompletion, okJsonResp, respOk,
      canonicalChatBody, Jv.get, lookupField, Jv.truthy, Jv.isArr,
      Jv.asArr, Jv.asStr, Jv.isStr, Jv.typeofObject, hpos, hne,
      citeLineFold_map_str]
  · intro env ms model flag content cv hcv
    cases cv <;>
      simp_all [IndexTs.performChatCompletion, okJsonResp, respOk,
        chatBodyWithCits, Jv.get, lookupField, Jv.truthy, Jv.isArr,
        Jv.asArr, Jv.asStr, Jv.isStr, Jv.typeofObject]
  · intro env ms model flag content hk
    have hiss : chatRespIssues
        (Jv.obj [("choices", Jv.arr [Jv.obj [("message",
            Jv.obj [("content", Jv.str content)])]]),
          ("citations", Jv.undefined)]) = [] := by
      have h2 := chatRespIssues_withCits content .undefined
      simp only [chatBodyWithCits] at h2
      rw [h2]
      simp [citationsIssues]
    simp [ServerTs.performChatCompletion, okJsonResp, respOk, hk, hiss,
      chatBodyWithCits, Jv.get, lookupField, Jv.truthy, Jv.asArr,
      Jv.asStr]
  · intro env ms model flag content hk
    have hiss : chatRespIssues
        (Jv.obj [("choices", Jv.arr [Jv.obj [("message",
            Jv.obj [("content", Jv.str content)])]]),
          ("citations", Jv.arr [])]) = [] := by
      have h2 := chatRespIssues_withCits content (.arr [])
      simp only [chatBodyWithCits] at h2
      rw [h2]
      simp [citationsIssues, citationElemIssues]
    simp [ServerTs.performChatCompletion, okJsonResp, respOk, hk, hiss,
      chatBodyWithCits, Jv.get, lookupField, Jv.truthy, Jv.isArr,
      Jv.asArr, Jv.asStr]
  · intro env ms model flag content cv hk h1 h2
    have hiss : chatRespIssues (chatBodyWithCits content cv) =
        [[ZPath.fld "citations"]] := by
      rw [chatRespIssues_withCits, citationsIssues_other h1 h2]
    simp [ServerTs.performChatCompletion, okJsonResp, respOk, hk, hiss,
      mentionsMC, pathMentions, zpIs]

/-- Claim C5, witness for C5_citation_block at concrete inputs. -/
theorem C5_witness :
    ServerTs.performChatCompletion envOk [] "sonar-pro" false
        (okJsonResp (canonicalChatBody "body text" ["u1", "u2"])) =
      ([.setT, .clearT], .ok
        ("body text" ++ "\n\nCitations:\n" ++
          strJoin (citeLinesSpec 0 ["u1", "u2"]))) ∧
    IndexTs.performChatCompletion envOk [] "sonar-pro" false
        (okJsonResp (canonicalChatBody "body text" ["u1"])) =
      ([.setT, .clearT], .ok
        ("body text" ++ "\n\nCitations:\n" ++
          strJoin (citeLinesSpec 0 ["u1"]))) ∧
    IndexTs.performChatCompletion envOk [] "sonar-pro" false
        (okJsonResp (chatBodyWithCits "plain" (.arr []))) =
      ([.setT, .clearT], .ok "plain") ∧
    ServerTs.performChatCompletion envOk [] "sonar-pro" false
        (okJsonResp (chatBodyWithCits "plain" .undefined)) =
      ([.setT, .clearT], .ok "plain") ∧
    ServerTs.performChatCompletion envOk [] "sonar-pro" false
        (okJsonResp (chatBodyWithCits "plain" (.num 3))) =
      ([.setT, .clearT], .error (.ewrapIssues
        "Failed to parse JSON response from Perplexity API"
        [[ZPath.fld "citations"]])) :=
  ⟨C5_citation_block.1 envOk [] "sonar-pro" false "body text" ["u1", "u2"]
     (by decide) (by decide),
   C5_citation_block.2.1 envOk [] "sonar-pro" false "body text" ["u1"]
     (by decide),
   C5_citation_block.2.2.2.1 envOk [] "sonar-pro" false "plain" (.arr [])
     (by decide),
   C5_citation_block.2.2.2.2.1 envOk [] "sonar-pro" false "plain"
     (by decide),
   C5_citation_block.2.2.2.2.2.2 envOk [] "sonar-pro" false "plain"
     (.num 3) (by decide) (by decide) (by decide)⟩

lemma jv_isUndefined_eq {v : Jv} (h : v.isUndefined = true) : v = .undefined := by
  cases v <;> simp_all [Jv.isUndefined]

lemma jv_isArr_exists {v : Jv} (h : v.isArr = true) : ∃ xs, v = .arr xs := by
  cases v <;> simp_all [Jv.isArr]

lemma any_true_isEmpty_false {α : Type} {p : α → Bool} {l : List α}
    (h : l.any p = true) : l.isEmpty = false := by
  cases l <;> simp_all

lemma citationElemIssues_no_mc :
    ∀ (xs : List Jv) (k : Nat),
      (citationElemIssues k xs).any mentionsMC = false := by
  intro xs
  induction xs with
  | nil => intro k; rfl
  | cons x rest ih =>
      intro k
      by_cases hx : x.isStr = true <;>
        simp [citationElemIssues, hx, mentionsMC, pathMentions, zpIs, ih]

lemma citationsIssues_no_mc (v : Jv) :
    (citationsIssues v).any mentionsMC = false := by
  cases v <;>
    simp [citationsIssues, citationElemIssues_no_mc, mentionsMC,
      pathMentions, zpIs]

lemma usageIssues_no_mc (v : Jv) :
    (usageIssues v).any mentionsMC = false := by
  cases v with
  | obj fs =>
      simp only [usageIssues, List.any_append]
      split_ifs <;> simp [mentionsMC, pathMentions, zpIs]
  | undefined => rfl
  | jnull => simp [usageIssues, mentionsMC, pathMentions, zpIs]
  | bool b => simp [usageIssues, mentionsMC, pathMentions, zpIs]
  | num n => simp [usageIssues, mentionsMC, pathMentions, zpIs]
  | str s => simp [usageIssues, mentionsMC, pathMentions, zpIs]
  | arr xs => simp [usageIssues, mentionsMC, pathMentions, zpIs]

lemma optPrimIssues_no_mc {name : String} (h1 : name ≠ "message")
    (h2 : name ≠ "content") (isOk : Jv → Bool) (v : Jv) :
    (optPrimIssues name isOk v).any mentionsMC = false := by
  unfold optPrimIssues
  split_ifs <;> simp [mentionsMC, pathMentions, zpIs, h1, h2]

lemma choicesIssues_missing_or_empty {c : Jv}
    (h : choicesMissingOrEmpty c = true) :
    choicesIssues c = [[ZPath.fld "choices"]] := by
  rw [choicesMissingOrEmpty, Bool.or_eq_true] at h
  rcases h with h1 | h2
  · rw [jv_isUndefined_eq h1]
    rfl
  · rw [Bool.and_eq_true] at h2
    obtain ⟨ha, he⟩ := h2
    obtain ⟨xs, rfl⟩ := jv_isArr_exists ha
    cases xs with
    | nil => rfl
    | cons x r => simp [Jv.asArr] at he

/-- Claim C4, counterexample to the stated form: the 2xx body whose
single choice has a present string content "x" but a numeric role inside
message is, per the claim, in the generic-parse-failure bucket; the
zod-validated performChatCompletion instead reports the missing message
content error, because the classification keys on whether any issue path
merely mentions the segment message (the role issue path does), not on
whether the content itself is missing. -/
theorem C4_counterexample :
    ServerTs.performChatCompletion envOk [] "sonar-pro" false
        (okJsonResp (.obj [("choices", .arr [.obj [("message",
          .obj [("content", .str "x"), ("role", .num 5)])]])])) =
      ([.setT, .clearT], .error (.emsg
        "Invalid API response: missing message content")) ∧
    (((Jv.obj [("choices", .arr [.obj [("message",
        .obj [("content", .str "x"), ("role", .num 5)])]])]).get
      "choices").asArr.headD .undefined |>.get "message" |>.get
      "content").isStr = true ∧
    ((Jv.obj [("choices", .arr [.obj [("message",
        .obj [("content", .str "x"), ("role", .num 5)])]])]).get
      "choices").asArr.length = 1 ∧
    isGenericChatParseError
      (.emsg "Invalid API response: missing message content") = false := by
  decide

/-- Claim C4 (corrected).  For object bodies, a missing or empty choices
field yields the missing-or-empty-choices error and a first choice object
whose message.content is missing or non-string yields the
missing-message-content error, in both variants.  Beyond that, the
zod-validated variant classifies purely by issue paths: any parse failure
with an issue path mentioning message or content yields the
missing-message-content error (even when content is a present string,
see C4_counterexample), otherwise a path mentioning choices yields the
missing-or-empty-choices error, otherwise the generic parse error
wrapping the issues. -/
theorem C4_shape_classification :
    (∀ (env : Env) (ms : List Message) (model : String) (flag : Bool)
        (fs : List (String × Jv)),
        choicesMissingOrEmpty (lookupField fs "choices") = true →
        IndexTs.performChatCompletion env ms model flag
            (okJsonResp (.obj fs)) =
          ([.setT, .clearT], .error (.emsg
            "Invalid API response: missing or empty choices array"))) ∧
    (∀ (env : Env) (ms : List Message) (model : String) (flag : Bool)
        (fs : List (String × Jv)),
        optTruthy env.apiKey = true →
        choicesMissingOrEmpty (lookupField fs "choices") = true →
        ServerTs.performChatCompletion env ms model flag
            (okJsonResp (.obj fs)) =
          ([.setT, .clearT], .error (.emsg
            "Invalid API response: missing or empty choices array"))) ∧
    (∀ (env : Env) (ms : List Message) (model : String) (flag : Bool)
        (fs : List (String × Jv)) (e0fs : List (String × Jv))
        (rest : List Jv),
        lookupField fs "choices" = .arr (Jv.obj e0fs :: rest) →
        (((Jv.obj e0fs).get "message").get "content").isStr = false →
        IndexTs.performChatCompletion env ms model flag
            (okJsonResp (.obj fs)) =
          ([.setT, .clearT], .error (.emsg
            "Invalid API response: missing message content"))) ∧
    (∀ (env : Env) (ms : List Message) (model : String) (flag : Bool)
        (fs : List (String × Jv)) (e0fs : List (String × Jv))
        (rest : List Jv),
        optTruthy env.apiKey = true →
        lookupField fs "choices" = .arr (Jv.obj e0fs :: rest) →
        (((Jv.obj e0fs).get "message").get "content").isStr = false →
        ServerTs.performChatCompletion env ms model flag
            (okJsonResp (.obj fs)) =
          ([.setT, .clearT], .error (.emsg
            "Invalid API response: missing message content"))) ∧
    (∀ (env : Env) (ms : List Message) (model : String) (flag : Bool)
        (v : Jv),
        optTruthy env.apiKey = true →
        (chatRespIssues v).any mentionsMC = true →
        ServerTs.performChatCompletion env ms model flag (okJsonResp v) =
          ([.setT, .clearT], .error (.emsg
            "Invalid API response: missing message content"))) ∧
    (∀ (env : Env) (ms : List Message) (model : String) (flag : Bool)
        (v : Jv),
        optTruthy env.apiKey = true →
        (chatRespIssues v).any mentionsMC = false →
        (chatRespIssues v).any (fun i => pathMentions i "choices") = true →
        ServerTs.performChatCompletion env ms model flag (okJsonResp v) =
          ([.setT, .clearT], .error (.emsg
            "Invalid API response: missing or empty choices array"))) ∧
    (∀ (env : Env) (ms : List Message) (model : String) (flag : Bool)
        (v : Jv),
        optTruthy env.apiKey = true →
        (chatRespIssues v).isEmpty = false →
        (chatRespIssues v).any mentionsMC = false →
        (chatRespIssues v).any (fun i => pathMentions i "choices") = false →
        ServerTs.performChatCompletion env ms model flag (okJsonResp v) =
          ([.setT, .clearT], .error (.ewrapIssues
            "Failed to parse JSON response from Perplexity API"
            (chatRespIssues v)))) := by
  refine ⟨?_, ?_, ?_, ?_, ?_, ?_, ?_⟩
  · intro env ms model flag fs h
    rw [choicesMissingOrEmpty, Bool.or_eq_true] at h
    rcases h with h1 | h2
    · have hc := jv_isUndefined_eq h1
      simp [IndexTs.performChatCompletion, okJsonResp, respOk, Jv.get,
        hc, Jv.truthy]
    · rw [Bool.and_eq_true] at h2
      obtain ⟨ha, he⟩ := h2
      obtain ⟨xs, hc⟩ := jv_isArr_exists ha
      rw [hc] at he
      cases xs with
      | nil =>
          simp [IndexTs.performChatCompletion, okJsonResp, respOk,
            Jv.get, hc, Jv.truthy, Jv.isArr, Jv.asArr]
      | cons x r => simp [Jv.asArr] at he
  · intro env ms model flag fs hk h
    have hch := choicesIssues_missing_or_empty h
    have hmc : (chatRespIssues (.obj fs)).any mentionsMC = false := by
      simp only [chatRespIssues, List.any_append, hch]
      simp [mentionsMC, pathMentions, zpIs, citationsIssues_no_mc,
        usageIssues_no_mc, optPrimIssues_no_mc]
    have hchoice : (chatRespIssues (.obj fs)).any
        (fun i => pathMentions i "choices") = true := by
      simp only [chatRespIssues, List.any_append, hch]
      simp [pathMentions, zpIs]
    have hne : (chatRespIssues (.obj fs)).isEmpty = false :=
      any_true_isEmpty_false hchoice
    simp [ServerTs.performChatCompletion, okJsonResp, respOk, hk, hne,
      hmc, hchoice]
  · intro env ms model flag fs e0fs rest hch hcont
    simp only [Jv.get] at hcont
    by_cases hm : (lookupField e0fs "message").truthy = true <;>
      simp [IndexTs.performChatCompletion, okJsonResp, respOk, Jv.get,
        hch, Jv.truthy, Jv.isArr, Jv.asArr, hm, hcont]
  · intro env ms model flag fs e0fs rest hk hch hcont
    simp only [Jv.get] at hcont
    have hcc : (chatChoiceIssues [ZPath.fld "choices", ZPath.idx 0]
        (Jv.obj e0fs)).any mentionsMC = true := by
      cases hmv : lookupField e0fs "message" with
      | obj mfs =>
          rw [hmv] at hcont
          simp only [Jv.get] at hcont
          simp [chatChoiceIssues, chatMessageIssues, hmv,
            List.any_append, hcont, mentionsMC, pathMentions, zpIs]
      | undefined =>
          simp [chatChoiceIssues, chatMessageIssues, hmv,
            List.any_append, mentionsMC, pathMentions, zpIs]
      | jnull =>
          simp [chatChoiceIssues, chatMessageIssues, hmv,
            List.any_append, mentionsMC, pathMentions, zpIs]
      | bool b =>
          simp [chatChoiceIssues, chatMessageIssues, hmv,
            List.any_append, mentionsMC, pathMentions, zpIs]
      | num n =>
          simp [chatChoiceIssues, chatMessageIssues, hmv,
            List.any_append, mentionsMC, pathMentions, zpIs]
      | str s =>
          simp [chatChoiceIssues, chatMessageIssues, hmv,
            List.any_append, mentionsMC, pathMentions, zpIs]
      | arr xs =>
          simp [chatChoiceIssues, chatMessageIssues, hmv,
            List.any_append, mentionsMC, pathMentions, zpIs]
    have hany : (chatRespIssues (.obj fs)).any mentionsMC = true := by
      simp only [chatRespIssues, List.any_append, hch]
      simp [choicesIssues, choiceElemIssues, List.any_append, hcc]
    have hne := any_true_isEmpty_false hany
    simp [ServerTs.performChatCompletion, okJsonResp, respOk, hk, hne,
      hany]
  · intro env ms model flag v hk h
    have hne := any_true_isEmpty_false h
    simp [ServerTs.performChatCompletion, okJsonResp, respOk, hk, hne, h]
  · intro env ms model flag v hk h1 h2
    have hne := any_true_isEmpty_false h2
    simp [ServerTs.performChatCompletion, okJsonResp, respOk, hk, hne,
      h1, h2]
  · intro env ms model flag v hk hne h1 h2
    simp [ServerTs.performChatCompletion, okJsonResp, respOk, hk, hne,
      h1, h2]

/-- Claim C4, witness for C4_shape_classification at concrete inputs. -/
theorem C4_witness :
    IndexTs.performChatCompletion envOk [] "sonar-pro" false
        (okJsonResp (.obj [])) =
      ([.setT, .clearT], .error (.emsg
        "Invalid API response: missing or empty choices array")) ∧
    ServerTs.performChatCompletion envOk [] "sonar-pro" false
        (okJsonResp (.obj [])) =
      ([.setT, .clearT], .error (.emsg
        "Invalid API response: missing or empty choices array")) ∧
    IndexTs.performChatCompletion envOk [] "sonar-pro" false
        (okJsonResp (.obj [("choices", .arr [.obj []])])) =
      ([.setT, .clearT], .error (.emsg
        "Invalid API response: missing message content")) ∧
    ServerTs.performChatCompletion envOk [] "sonar-pro" false
        (okJsonResp (.obj [("choices", .arr [.obj []])])) =
      ([.setT, .clearT], .error (.emsg
        "Invalid API response: missing message content")) ∧
    ServerTs.performChatCompletion envOk [] "sonar-pro" false
        (okJsonResp (.num 5)) =
      ([.setT, .clearT], .error (.ewrapIssues
        "Failed to parse JSON response from Perplexity API"
        (chatRespIssues (.num 5)))) :=
  ⟨C4_shape_classification.1 envOk [] "sonar-pro" false [] (by decide),
   C4_shape_classification.2.1 envOk [] "sonar-pro" false [] (by decide)
     (by decide),
   C4_shape_classification.2.2.1 envOk [] "sonar-pro" false
     [("choices", .arr [.obj []])] [] [] (by rfl) (by decide),
   C4_shape_classification.2.2.2.1 envOk [] "sonar-pro" false
     [("choices", .arr [.obj []])] [] [] (by decide) (by rfl) (by decide),
   C4_shape_classification.2.2.2.2.2.2 envOk [] "sonar-pro" false
     (.num 5) (by decide) (by decide) (by decide) (by decide)⟩

/-- Claim C8 (confirmed against the spec-modelled session manager,
handleReadSide).  A read-side request presenting no session identifier
is rejected with HTTP 400 and a fixed descriptive body; a request
presenting an identifier not registered in the live-session map is
rejected the same way; the body is non-empty, so the rejection is never
silent; and a registered identifier attaches to its channel. -/
theorem C8_read_side_rejection :
    (∀ sessions : SessionMap,
        handleReadSide none sessions =
          .rejected 400 "Bad Request: invalid or missing session ID") ∧
    (∀ (sid : String) (sessions : SessionMap),
        sessionLookup sessions sid = none →
        handleReadSide (some sid) sessions =
          .rejected 400 "Bad Request: invalid or missing session ID") ∧
    ("Bad Request: invalid or missing session ID" ≠ "") ∧
    (∀ (sid : String) (ch : Nat) (sessions : SessionMap),
        sessionLookup sessions sid = some ch →
        handleReadSide (some sid) sessions = .attached ch) := by
  refine ⟨fun _ => rfl, ?_, by decide, ?_⟩
  · intro sid sessions h
    simp [handleReadSide, h]
  · intro sid ch sessions h
    simp [handleReadSide, h]

/-- Claim C8, witness for C8_read_side_rejection at concrete inputs: the
session map holding only S1, probed with the unknown identifier S2 and
with the registered identifier S1. -/
theorem C8_witness :
    handleReadSide (some "S2") [("S1", 7)] =
      .rejected 400 "Bad Request: invalid or missing session ID" ∧
    handleReadSide (some "S1") [("S1", 7)] = .attached 7 :=
  ⟨C8_read_side_rejection.2.1 "S2" [("S1", 7)] (by decide),
   C8_read_side_rejection.2.2.2 "S1" 7 [("S1", 7)] (by decide)⟩

/-- Claim C6, witness for C6_timeout_classification at concrete inputs. -/
theorem C6_witness :
    ServerTs.performChatCompletion envOk [] "sonar-pro" false .aborted =
      ([.setT, .clearT], .error (.emsg
        ("Request timeout: Perplexity API did not respond within " ++
         budgetRender (readTimeoutMs envOk) ++
         "ms. Consider increasing PERPLEXITY_TIMEOUT_MS.")))
    ∧
    ServerTs.performSearch envOk "q" 10 1024 none (.failed "boom") =
      ([.setT, .clearT], .error (.ewrapCause
        "Network error while calling Perplexity Search API" "boom")) :=
  ⟨C6_timeout_classification.1 envOk [] "sonar-pro" false (by decide),
   C6_timeout_classification.2.2.2.1 envOk "q" 10 1024 none "boom"
     (by decide)⟩

end PerplexityMcp
